import Mathlib

/-! # Verification of the task node and dependency graph engine

Shallow embedding of `airflow/models/baseoperator.py`: the `BaseOperator`
data model, constructor validation, equality and hashing, the relationship
management (`_set_relatives`, `add_only_new`, `chain`), priority weight
propagation (`priority_weight_total`, `get_flat_relative_ids`), the recursive
template renderer (`render_template`, `_do_render_template_fields`,
`_render_nested_template_fields`) and the deferral signal (`defer`).

Python objects are modelled by value passing: a mutable object becomes a
record, a mutation becomes a functional update threaded through the
computation, and the object graph of a DAG becomes a `World` mapping task ids
to operator records. Python `set` objects of strings become duplicate-free
`List String` values in insertion order; membership is what the code
observes. Exceptions become `Except` errors.
-/

namespace Airflow

/-- Modelled from the spec: the recognized trigger rules
(`TriggerRule.all_triggers()` lives in `airflow/utils/trigger_rule.py`,
which is not part of the sources here; section 6 of the design lists the
recognized rule strings). -/
def TriggerRule.all_triggers : List String :=
  ["all_success", "all_failed", "all_done", "one_success", "one_failed",
   "none_failed", "none_failed_min_one_success", "none_skipped", "always"]

/-- Modelled from the spec: the recognized weight rules
(`WeightRule.all_weight_rules` lives in `airflow/utils/weight_rule.py`,
which is not part of the sources here; the spec fixes the rule set to
ABSOLUTE, DOWNSTREAM and UPSTREAM). -/
def WeightRule.all_weight_rules : List String :=
  ["downstream", "upstream", "absolute"]

/-- `WeightRule.ABSOLUTE` -/
def WeightRule.ABSOLUTE : String := "absolute"

/-- `WeightRule.DOWNSTREAM` -/
def WeightRule.DOWNSTREAM : String := "downstream"

/-- `WeightRule.UPSTREAM` -/
def WeightRule.UPSTREAM : String := "upstream"

/-- The state of one `BaseOperator` object. Field names follow the Python
attributes set in `BaseOperator.__init__`. Callbacks are opaque and are
represented by optional tokens; datetimes, timedeltas and SLA values are
represented by integers (seconds), which is all the claims observe of them.
`op_type` stands for the concrete Python class of the instance (`type(self)`),
`_dag` holds the id of the owning DAG when one is assigned. -/
structure Operator where
  op_type : String
  task_id : String
  owner : String
  email : Option String
  email_on_retry : Bool
  email_on_failure : Bool
  start_date : Option Int
  end_date : Option Int
  trigger_rule : String
  depends_on_past : Bool
  wait_for_downstream : Bool
  retries : Option Int
  queue : String
  pool : String
  pool_slots : Int
  sla : Option Int
  execution_timeout : Option Int
  on_execute_callback : Option Nat
  on_failure_callback : Option Nat
  on_success_callback : Option Nat
  on_retry_callback : Option Nat
  retry_delay : Int
  retry_exponential_backoff : Bool
  max_retry_delay : Option Int
  priority_weight : Int
  weight_rule : String
  do_xcom_push : Bool
  _dag : Option String
  _upstream_task_ids : List String
  _downstream_task_ids : List String
deriving Repr, DecidableEq

/-- `BaseOperator.has_dag`: true once the operator has been assigned to a DAG. -/
def Operator.has_dag (o : Operator) : Bool :=
  o._dag.isSome

/-- `BaseOperator.dag_id`: the id of the owning DAG, or an ad hoc id derived
from the owner when no DAG is assigned. -/
def Operator.dag_id (o : Operator) : String :=
  match o._dag with
  | some d => d
  | none => "adhoc_" ++ o.owner

/-- The constructor faults the claims track. In the source these are
`AirflowException` for the key format, the trigger rule, the weight rule and
a non integer priority weight, and `ValueError` for bad pool slots; the spec
folds all of them into one `ConfigurationError` class raised synchronously
at construction. -/
inductive ConfigError where
  | invalidKeyFormat
  | invalidTriggerRule
  | invalidPoolSlots
  | invalidWeightRule
deriving Repr, DecidableEq

/-- The constructor arguments the embedding tracks, with the defaults the
source declares where a claim needs them. -/
structure InitArgs where
  task_id : String
  owner : String
  email : Option String
  email_on_retry : Bool
  email_on_failure : Bool
  start_date : Option Int
  end_date : Option Int
  trigger_rule : String
  depends_on_past : Bool
  wait_for_downstream : Bool
  retries : Option Int
  queue : String
  pool : Option String
  pool_slots : Int
  sla : Option Int
  execution_timeout : Option Int
  on_execute_callback : Option Nat
  on_failure_callback : Option Nat
  on_success_callback : Option Nat
  on_retry_callback : Option Nat
  retry_delay : Int
  retry_exponential_backoff : Bool
  max_retry_delay : Option Int
  priority_weight : Int
  weight_rule : String
  do_xcom_push : Bool
deriving Repr, DecidableEq

/-- `Pool.DEFAULT_POOL_NAME`, substituted when the `pool` argument is absent. -/
def DEFAULT_POOL_NAME : String := "default_pool"

/-- Modelled from the spec: the key-format rule for task ids
(`validate_key` lives in `airflow/utils/helpers.py`, which is not part of
the sources here; the spec requires the node id to be validated against a
key-format rule and lists illegal key format among the configuration
faults). The rule accepts non empty keys of at most 250 characters drawn
from alphanumerics, underscores, dots and dashes. -/
def validate_key (k : String) : Bool :=
  decide (k.data.length ≤ 250) && !k.data.isEmpty
    && k.data.all (fun c => c.isAlphanum || c == '_' || c == '.' || c == '-')

/-- `BaseOperator.__init__`, restricted to the validation and normalization
steps the claims observe, in source order: the task id key format is
validated first (`validate_key(task_id)`, before every other check), the
two deprecated trigger rule aliases are translated, the trigger rule is
validated, `wait_for_downstream` forces `depends_on_past`, the pool default
is filled in, `pool_slots < 1` is rejected, and the weight rule is
validated. Checks the static types of this embedding make impossible (non
integer `retries` or `priority_weight`, retry delays given as plain
numbers) are not represented. A fresh operator has no DAG and empty
relationship sets. -/
def baseOperatorInit (a : InitArgs) : Except ConfigError Operator :=
  if !(validate_key a.task_id) then
    Except.error ConfigError.invalidKeyFormat
  else
  let trigger_rule := if a.trigger_rule = "dummy" then "always" else a.trigger_rule
  let trigger_rule :=
    if trigger_rule = "none_failed_or_skipped" then "none_failed_min_one_success"
    else trigger_rule
  if trigger_rule ∉ TriggerRule.all_triggers then
    Except.error ConfigError.invalidTriggerRule
  else
    let depends_on_past := if a.wait_for_downstream then true else a.depends_on_past
    let pool := match a.pool with
      | some p => p
      | none => DEFAULT_POOL_NAME
    if a.pool_slots < 1 then
      Except.error ConfigError.invalidPoolSlots
    else if a.weight_rule ∉ WeightRule.all_weight_rules then
      Except.error ConfigError.invalidWeightRule
    else
      Except.ok
        { op_type := "BaseOperator"
          task_id := a.task_id
          owner := a.owner
          email := a.email
          email_on_retry := a.email_on_retry
          email_on_failure := a.email_on_failure
          start_date := a.start_date
          end_date := a.end_date
          trigger_rule := trigger_rule
          depends_on_past := depends_on_past
          wait_for_downstream := a.wait_for_downstream
          retries := a.retries
          queue := a.queue
          pool := pool
          pool_slots := a.pool_slots
          sla := a.sla
          execution_timeout := a.execution_timeout
          on_execute_callback := a.on_execute_callback
          on_failure_callback := a.on_failure_callback
          on_success_callback := a.on_success_callback
          on_retry_callback := a.on_retry_callback
          retry_delay := a.retry_delay
          retry_exponential_backoff := a.retry_exponential_backoff
          max_retry_delay := a.max_retry_delay
          priority_weight := a.priority_weight
          weight_rule := a.weight_rule
          do_xcom_push := a.do_xcom_push
          _dag := none
          _upstream_task_ids := []
          _downstream_task_ids := [] }

/-- Arguments forming a valid construction except possibly for the pool
slots: a well formed task id key and recognized trigger and weight rules
(aliases included). -/
def InitArgs.otherwiseValid (a : InitArgs) : Prop :=
  validate_key a.task_id = true
  ∧ (a.trigger_rule ∈ TriggerRule.all_triggers ∨ a.trigger_rule = "dummy"
    ∨ a.trigger_rule = "none_failed_or_skipped")
  ∧ a.weight_rule ∈ WeightRule.all_weight_rules

instance (a : InitArgs) : Decidable a.otherwiseValid := by
  unfold InitArgs.otherwiseValid
  infer_instance

/-- The payload of the `TaskDeferred` exception raised by
`BaseOperator.defer`: the trigger (opaque token), the continuation method
name, its keyword arguments and the optional timeout. -/
structure TaskDeferred where
  trigger : Nat
  method_name : String
  kwargs : Option (List (String × Int))
  timeout : Option Int
deriving Repr, DecidableEq

/-- `BaseOperator.defer`: unconditionally raises `TaskDeferred` with the four
fields; in the embedding the raise is the `Except.error` value. -/
def Operator.defer (trigger : Nat) (method_name : String)
    (kwargs : Option (List (String × Int))) (timeout : Option Int) :
    Except TaskDeferred Unit :=
  Except.error
    { trigger := trigger, method_name := method_name
      kwargs := kwargs, timeout := timeout }

/-- The tuple of comparison attributes: `BaseOperator._comps` with
`dag_id` resolved as the source resolves it through `getattr`. The source
lists exactly these twenty attributes; note `retries`, `email_on_failure`,
`pool`, `pool_slots`, `queue`, `trigger_rule`, `weight_rule` and the
relationship sets are not among them. -/
def Operator.compTuple (o : Operator) :
    String × String × String × Option String × Bool × Int × Bool × Option Int
      × Option Int × Option Int × Bool × Bool × Int × Option Int × Option Int
      × Option Nat × Option Nat × Option Nat × Option Nat × Bool :=
  (o.task_id, o.dag_id, o.owner, o.email, o.email_on_retry,
   o.retry_delay, o.retry_exponential_backoff, o.max_retry_delay,
   o.start_date, o.end_date, o.depends_on_past, o.wait_for_downstream,
   o.priority_weight, o.sla, o.execution_timeout,
   o.on_execute_callback, o.on_failure_callback, o.on_success_callback,
   o.on_retry_callback, o.do_xcom_push)

/-- `BaseOperator.__eq__`: equal exactly when the concrete types coincide and
every comparison attribute in `_comps` matches. -/
def Operator.opEq (a b : Operator) : Bool :=
  if a.op_type = b.op_type then
    decide (a.task_id = b.task_id) && decide (a.dag_id = b.dag_id)
      && decide (a.owner = b.owner) && decide (a.email = b.email)
      && decide (a.email_on_retry = b.email_on_retry)
      && decide (a.retry_delay = b.retry_delay)
      && decide (a.retry_exponential_backoff = b.retry_exponential_backoff)
      && decide (a.max_retry_delay = b.max_retry_delay)
      && decide (a.start_date = b.start_date)
      && decide (a.end_date = b.end_date)
      && decide (a.depends_on_past = b.depends_on_past)
      && decide (a.wait_for_downstream = b.wait_for_downstream)
      && decide (a.priority_weight = b.priority_weight)
      && decide (a.sla = b.sla)
      && decide (a.execution_timeout = b.execution_timeout)
      && decide (a.on_execute_callback = b.on_execute_callback)
      && decide (a.on_failure_callback = b.on_failure_callback)
      && decide (a.on_success_callback = b.on_success_callback)
      && decide (a.on_retry_callback = b.on_retry_callback)
      && decide (a.do_xcom_push = b.do_xcom_push)
  else
    false

/-- `BaseOperator.__hash__`: a hash of the type tag together with the
comparison attributes, and of nothing else. The source appends `type(self)`
and then every `_comps` value (falling back to `repr` for unhashable values,
a case the typed embedding has no instance of) and hashes the tuple. -/
def Operator.opHash (a : Operator) : UInt64 :=
  hash (a.op_type, a.compTuple)

/-- The state of one DAG object as the claims observe it: its id, the keys of
`task_dict`, and the children of its root `TaskGroup`. -/
structure Dag where
  dag_id : String
  task_ids : List String
  task_group_children : List String
deriving Repr, DecidableEq

/-- The object graph of an authoring session: every operator object, keyed by
its task id (a task id names exactly one live object, the invariant the
source enforces at DAG insertion time), and every DAG object, keyed by its
DAG id. -/
structure World where
  node : String → Operator
  dags : String → Dag

/-- Functional update of one operator object. -/
def World.updNode (w : World) (tid : String) (f : Operator → Operator) : World :=
  { w with node := fun i => if i = tid then f (w.node i) else w.node i }

/-- Functional update of one DAG object. -/
def World.updDag (w : World) (g : String) (f : Dag → Dag) : World :=
  { w with dags := fun i => if i = g then f (w.dags i) else w.dags i }

/-- The adoption step of `_set_relatives` for one DAG-less operator:
`task.dag = dag` (the DAG setter, which calls `dag.add_task` since the task
is not yet in `task_dict`) followed by `task.dag.task_group.add(task)`
(insertion into the root grouping). `dag.add_task` and `TaskGroup.add` live
outside these sources; modelled from the spec: the operator is adopted into
the DAG and inserted into the root grouping. -/
def World.adopt (w : World) (tid g : String) : World :=
  let w := w.updNode tid (fun n => { n with _dag := some g })
  let w := w.updDag g (fun d => { d with task_ids := d.task_ids ++ [tid] })
  w.updDag g (fun d => { d with task_group_children := d.task_group_children ++ [tid] })

/-- The duplicate edge diagnostic `add_only_new` logs: the operator whose set
already held the item, the item, and the DAG id named in the message. -/
structure DupWarning where
  node : String
  item : String
  dag_id : String
deriving Repr, DecidableEq

/-- `BaseOperator.add_only_new`: add the item to the set unless already
present; a duplicate is a logged warning, never an error. Returns the new set
and whether the duplicate diagnostic fired. -/
def add_only_new (item_set : List String) (item : String) : List String × Bool :=
  if item ∈ item_set then (item_set, true) else (item_set ++ [item], false)

/-- The graph building faults of `_set_relatives`. In the source all three are
`AirflowException`; the spec names them `InvalidRelationshipError`,
`MultiGraphConflictError` and `UngroupedRelationshipError`. -/
inductive LinkError where
  | invalidRelationship
  | multiGraphConflict
  | ungroupedRelationship
  | chainLengthMismatch
deriving Repr, DecidableEq

/-- The per-task body of the final loop of `_set_relatives`: adopt the task
into the DAG when it has none, then record the edge in both directions
through `add_only_new` (for `upstream = true` the task gains `self` in its
downstream set and `self` gains the task in its upstream set; symmetric
otherwise), collecting any duplicate diagnostics. -/
def setRelativesStep (selfId : String) (g : String) (upstream : Bool)
    (acc : World × List DupWarning) (t : String) : World × List DupWarning :=
  let (w, ws) := acc
  let w := if (w.node t)._dag = none then w.adopt t g else w
  if upstream then
    let (s1, dup1) := add_only_new (w.node t)._downstream_task_ids selfId
    let w := w.updNode t (fun n => { n with _downstream_task_ids := s1 })
    let ws := ws ++ (if dup1 then [⟨t, selfId, g⟩] else [])
    let (s2, dup2) := add_only_new (w.node selfId)._upstream_task_ids t
    let w := w.updNode selfId (fun n => { n with _upstream_task_ids := s2 })
    (w, ws ++ (if dup2 then [⟨selfId, t, g⟩] else []))
  else
    let (s1, dup1) := add_only_new (w.node selfId)._downstream_task_ids t
    let w := w.updNode selfId (fun n => { n with _downstream_task_ids := s1 })
    let ws := ws ++ (if dup1 then [⟨selfId, t, g⟩] else [])
    let (s2, dup2) := add_only_new (w.node t)._upstream_task_ids selfId
    let w := w.updNode t (fun n => { n with _upstream_task_ids := s2 })
    (w, ws ++ (if dup2 then [⟨t, selfId, g⟩] else []))

/-- The distinct owning DAG ids across `self.roots + task_list`
(`self` first), DAG-less participants excluded: the key set of the `dags`
dict comprehension in `_set_relatives`. -/
def World.distinctDags (w : World) (selfId : String) (others : List String) :
    List String :=
  ((selfId :: others).filterMap (fun t => (w.node t)._dag)).dedup

/-- `BaseOperator._set_relatives` for plain operators (for a plain operator
`update_relative` is a no-op and `roots` and `leaves` are the singleton of
the operator itself, so the resolved frontier of each candidate is the
candidate; the compound frontier types and the `edge_modifier` collaborator
live outside these sources and outside the claims). After normalizing and
type checking, the distinct owning DAGs are computed: more than one is the
multi graph conflict, none is the ungrouped relationship fault, and with
exactly one every DAG-less participant (`self` first, the rest inside the
loop) is adopted before its edges are recorded. -/
def setRelatives (w : World) (selfId : String) (others : List String)
    (upstream : Bool) : Except LinkError (World × List DupWarning) :=
  match w.distinctDags selfId others with
  | [] => Except.error LinkError.ungroupedRelationship
  | [g] =>
      let w := if (w.node selfId)._dag = none then w.adopt selfId g else w
      Except.ok (others.foldl (setRelativesStep selfId g upstream) (w, []))
  | _ :: _ :: _ => Except.error LinkError.multiGraphConflict

/-- `BaseOperator.set_downstream` (through `_set_relatives` with
`upstream = False`). -/
def set_downstream (w : World) (selfId : String) (others : List String) :
    Except LinkError (World × List DupWarning) :=
  setRelatives w selfId others false

/-- `BaseOperator.set_upstream` (through `_set_relatives` with
`upstream = True`). -/
def set_upstream (w : World) (selfId : String) (others : List String) :
    Except LinkError (World × List DupWarning) :=
  setRelatives w selfId others true

/-- One argument of the module level `chain` helper: a single chainable
(a plain operator here) or a sequence of them. -/
inductive ChainArg where
  | one : String → ChainArg
  | many : List String → ChainArg
deriving Repr, DecidableEq

/-- One iteration of the `chain` loop for the adjacent pair
`(up_task, down_task)`: a chainable on the left links the whole right hand
side downstream; otherwise a chainable on the right links the whole left
hand side upstream; otherwise both are sequences, which must have equal
length and are linked pairwise. -/
def chainStep (w : World) : ChainArg → ChainArg →
    Except LinkError (World × List DupWarning)
  | ChainArg.one u, ChainArg.one d => set_downstream w u [d]
  | ChainArg.one u, ChainArg.many ds => set_downstream w u ds
  | ChainArg.many us, ChainArg.one d => set_upstream w d us
  | ChainArg.many us, ChainArg.many ds =>
      if us.length ≠ ds.length then
        Except.error LinkError.chainLengthMismatch
      else
        (List.zip us ds).foldlM
          (fun (acc : World × List DupWarning) p => do
            let (w, ws) := acc
            let r ← set_downstream w p.1 [p.2]
            pure (r.1, ws ++ r.2))
          (w, [])

/-- The module level `chain` helper: walk the adjacent pairs left to right,
linking each to the next; the first fault aborts the walk (a Python raise),
keeping the mutations already made. Returns the world reached, the collected
duplicate diagnostics, and the fault if one fired. -/
def chain (w : World) : List ChainArg → World × List DupWarning × Option LinkError
  | [] => (w, [], none)
  | [_] => (w, [], none)
  | a :: b :: rest =>
      match chainStep w a b with
      | Except.error e => (w, [], some e)
      | Except.ok (w1, ws1) =>
          let (w2, ws2, e) := chain w1 (b :: rest)
          (w2, ws1 ++ ws2, e)

/-- `BaseOperator.get_direct_relative_ids`: the upstream or the downstream id
set of the operator (the property returns the live set object). -/
def get_direct_relative_ids (w : World) (tid : String) (upstream : Bool) :
    List String :=
  if upstream then (w.node tid)._upstream_task_ids
  else (w.node tid)._downstream_task_ids

/-- `BaseOperator.get_flat_relative_ids`: depth first walk over the id graph
threading `found_descendants`; an operator without a DAG contributes nothing
beyond its own id, an id already found is not expanded again. The Python
recursion carries no fuel; the explicit fuel here only bounds the recursion
depth of the embedding, and any fuel at least the number of reachable ids is
enough. -/
def get_flat_relative_ids (w : World) (upstream : Bool) :
    Nat → String → List String → List String
  | 0, _, found => found
  | Nat.succ fuel, tid, found =>
      if (w.node tid)._dag = none then found
      else
        (get_direct_relative_ids w tid upstream).foldl
          (fun found rid =>
            if rid ∈ found then found
            else get_flat_relative_ids w upstream fuel rid (found ++ [rid]))
          found

/-- `BaseOperator.priority_weight_total`: the ABSOLUTE rule returns the own
weight with no traversal; DOWNSTREAM walks downstream, UPSTREAM walks
upstream, any unrecognized rule value falls through to the downstream
direction; without an owning DAG the result is the own weight; otherwise the
own weight plus the weights of the flattened closure, resolved through the
task table of the DAG. -/
def priority_weight_total (w : World) (fuel : Nat) (tid : String) : Int :=
  let n := w.node tid
  if n.weight_rule = WeightRule.ABSOLUTE then
    n.priority_weight
  else
    let upstream :=
      if n.weight_rule = WeightRule.DOWNSTREAM then false
      else if n.weight_rule = WeightRule.UPSTREAM then true
      else false
    if n._dag = none then
      n.priority_weight
    else
      n.priority_weight +
        ((get_flat_relative_ids w upstream fuel tid []).map
          (fun t => (w.node t).priority_weight)).sum

/-- A Python value as the template renderer sees it. Every non container
value carries the object identity `id(content)` the visited set stores.
`obj oid (some fs)` is an object exposing `template_fields` with the listed
field values (field names are elided: the renderer reads and writes the
fields positionally through `getattr`/`setattr` and the claims observe the
values); `obj oid none` is an opaque object without `template_fields`;
`resolvable` stands for an `XComArg` or `DagParam` carrying the value its
`resolve(context)` returns. -/
inductive Val where
  | str : String → Val
  | intv : Nat → Int → Val
  | resolvable : Val → Val
  | obj : Nat → Option (List Val) → Val
  | listv : List Val → Val
  | tupv : List Val → Val
  | dictv : List (String × Val) → Val
  | setv : List Val → Val
deriving Repr

/-- The truthiness test Python applies in `_do_render_template_fields`
(`if content:`). -/
def Val.truthy : Val → Bool
  | Val.str s => s != ""
  | Val.intv _ n => n != 0
  | Val.resolvable _ => true
  | Val.obj _ _ => true
  | Val.listv es => !es.isEmpty
  | Val.tupv es => !es.isEmpty
  | Val.dictv kvs => !kvs.isEmpty
  | Val.setv es => !es.isEmpty

/-- The invocation surface of the templating text engine: the registered file
extension suffixes (`self.template_ext`) and the two string rendering paths
(`jinja_env.get_template(content).render(**context)` for a file reference,
`jinja_env.from_string(content).render(**context)` for inline text). The
engine itself is an external collaborator; the claims only observe that a
string is replaced by its rendered result. -/
structure TplEnv where
  template_ext : List String
  render_file : String → String
  render_inline : String → String

mutual

/-- `BaseOperator.render_template`: strings render through the file or the
inline path, resolvables delegate to `resolve`, containers rebuild with each
element rendered — the recursive calls for tuple, list, dict and set
elements pass `jinja_env` but not `seen_oids`, exactly as the source does —
and any other object goes through `_render_nested_template_fields` with the
current visited set. Returns the rendered value, the trace of object ids
whose template fields were rendered (one entry per rendering), and the
visited set as the call leaves it. -/
def render_template (env : TplEnv) : Val → List Nat → Val × List Nat × List Nat
  | Val.str s, seen =>
      if env.template_ext.any (fun e => s.endsWith e) then
        (Val.str (env.render_file s), [], seen)
      else
        (Val.str (env.render_inline s), [], seen)
  | Val.intv oid n, seen =>
      if oid ∈ seen then (Val.intv oid n, [], seen)
      else (Val.intv oid n, [], seen ++ [oid])
  | Val.resolvable r, seen => (r, [], seen)
  | Val.obj oid none, seen =>
      if oid ∈ seen then (Val.obj oid none, [], seen)
      else (Val.obj oid none, [], seen ++ [oid])
  | Val.obj oid (some fs), seen =>
      if oid ∈ seen then (Val.obj oid (some fs), [], seen)
      else
        let p := renderFields env fs (seen ++ [oid])
        (Val.obj oid (some p.1), oid :: p.2.1, p.2.2)
  | Val.listv es, seen =>
      let p := renderElems env es
      (Val.listv p.1, p.2, seen)
  | Val.tupv es, seen =>
      let p := renderElems env es
      (Val.tupv p.1, p.2, seen)
  | Val.dictv kvs, seen =>
      let p := renderEntries env kvs
      (Val.dictv p.1, p.2, seen)
  | Val.setv es, seen =>
      let p := renderElems env es
      (Val.setv p.1, p.2, seen)

/-- The container element recursion of `render_template`: each element is
rendered by a call that does not forward the visited set (a fresh empty one
materializes if the element reaches the nested object branch). -/
def renderElems (env : TplEnv) : List Val → List Val × List Nat
  | [] => ([], [])
  | v :: vs =>
      let p := render_template env v []
      let q := renderElems env vs
      (p.1 :: q.1, p.2.1 ++ q.2)

/-- The dict value recursion of `render_template`: keys preserved, values
rendered, again without forwarding the visited set. -/
def renderEntries (env : TplEnv) : List (String × Val) → List (String × Val) × List Nat
  | [] => ([], [])
  | (k, v) :: kvs =>
      let p := render_template env v []
      let q := renderEntries env kvs
      ((k, p.1) :: q.1, p.2.1 ++ q.2)

/-- `BaseOperator._do_render_template_fields`: walk the template fields in
order; a falsy value is skipped (neither rendered nor reassigned), a truthy
one is replaced in place by `render_template` with the shared visited set
threaded through. -/
def renderFields (env : TplEnv) : List Val → List Nat → List Val × List Nat × List Nat
  | [], seen => ([], [], seen)
  | f :: fs, seen =>
      if f.truthy then
        let p := render_template env f seen
        let q := renderFields env fs p.2.2
        (p.1 :: q.1, p.2.1 ++ q.2.1, q.2.2)
      else
        let q := renderFields env fs seen
        (f :: q.1, q.2.1, q.2.2)

end

/-- `BaseOperator.render_template_fields`: the top level field render entry
point, calling `_do_render_template_fields` on the own template fields with a
fresh empty visited set. -/
def render_template_fields (env : TplEnv) (fields : List Val) : List Val :=
  (renderFields env fields []).1

/-- How many times one top level `render_template` invocation renders the
template fields of the object with identity `target`. -/
def render_count (env : TplEnv) (target : Nat) (v : Val) : Nat :=
  ((render_template env v []).2.1).count target

/-! ## Concrete fixtures -/

/-- An operator with the fields the graph claims read; everything else takes
neutral values. -/
def mkOp (tid : String) (dag : Option String) (up down : List String)
    (pw : Int) (rule : String) : Operator :=
  { op_type := "BaseOperator"
    task_id := tid
    owner := "airflow"
    email := none
    email_on_retry := true
    email_on_failure := true
    start_date := none
    end_date := none
    trigger_rule := "all_success"
    depends_on_past := false
    wait_for_downstream := false
    retries := some 0
    queue := "default"
    pool := DEFAULT_POOL_NAME
    pool_slots := 1
    sla := none
    execution_timeout := none
    on_execute_callback := none
    on_failure_callback := none
    on_success_callback := none
    on_retry_callback := none
    retry_delay := 300
    retry_exponential_backoff := false
    max_retry_delay := none
    priority_weight := pw
    weight_rule := rule
    do_xcom_push := true
    _dag := dag
    _upstream_task_ids := up
    _downstream_task_ids := down }

/-- A world holding the listed operators and DAGs; ids not listed resolve to
fresh unattached operators and empty DAGs. -/
def worldOf (ops : List Operator) (ds : List Dag) : World :=
  { node := fun i =>
      (((ops.filter (fun o => o.task_id == i)).head?).getD
        (mkOp i none [] [] 1 "downstream"))
    dags := fun g =>
      (((ds.filter (fun d => d.dag_id == g)).head?).getD ⟨g, [], []⟩) }

/-- A template environment whose text engine is the identity on both the file
and the inline path, with no registered file extensions. -/
def env0 : TplEnv :=
  { template_ext := [], render_file := fun s => s, render_inline := fun s => s }

/-- A nested templated object (an object exposing `template_fields`) with
object identity 1 and one template field. -/
def sharedObj : Val :=
  Val.obj 1 (some [Val.str "x"])

/-- The three node chain a → b → c of the weight claims, weights 1, 1, 1,
all in DAG `d` under the DOWNSTREAM rule. -/
def w4 : World :=
  worldOf
    [mkOp "a" (some "d") [] ["b"] 1 "downstream",
     mkOp "b" (some "d") ["a"] ["c"] 1 "downstream",
     mkOp "c" (some "d") ["b"] [] 1 "downstream"]
    [⟨"d", ["a", "b", "c"], ["a", "b", "c"]⟩]

/-- The same chain with the head node under the ABSOLUTE rule and weight 5. -/
def w4abs : World :=
  worldOf
    [mkOp "a" (some "d") [] ["b"] 5 "absolute",
     mkOp "b" (some "d") ["a"] ["c"] 1 "downstream",
     mkOp "c" (some "d") ["b"] [] 1 "downstream"]
    [⟨"d", ["a", "b", "c"], ["a", "b", "c"]⟩]

/-- The same chain with an unrecognized weight rule on the head node,
reachable only by mutating the attribute after construction. -/
def w10 : World :=
  worldOf
    [mkOp "a" (some "d") [] ["b"] 1 "bogus",
     mkOp "b" (some "d") ["a"] ["c"] 1 "downstream",
     mkOp "c" (some "d") ["b"] [] 1 "downstream"]
    [⟨"d", ["a", "b", "c"], ["a", "b", "c"]⟩]

/-- Two operators of the same concrete variant agreeing on every comparison
attribute but differing in `retries` and `pool_slots`, which are outside
`_comps`. -/
def a8 : Operator :=
  mkOp "t" (some "d") [] [] 1 "downstream"

/-- See `a8`. -/
def b8 : Operator :=
  { a8 with retries := some 3, pool_slots := 2, queue := "other" }

/-! ## Claims -/

/-- C1: the spec claims the visited identity set is threaded through the
entire recursive render call, including paths through lists, tuples, dicts
and sets, so a nested templated object reachable by several paths is
rendered exactly once per top level invocation. The source forwards
`seen_oids` only into the nested object branch; the recursive calls of the
container branches drop it, so the same object held twice in a list is
rendered twice — the first conjunct evaluates exactly that. The second
conjunct shows the direct object to object path does thread the set: the
same object twice among the template fields of one parent is rendered once.
The source documents `seen_oids` as existing to avoid recursion blowups on
circular dependencies, which the container path defeats, so the code, not
the claim, is wrong. -/
theorem c1_shared_reference_rendered_twice :
    render_count env0 1 (Val.listv [sharedObj, sharedObj]) = 2
    ∧ render_count env0 1 (Val.obj 2 (some [sharedObj, sharedObj])) = 1 := by
  exact ⟨by decide, by decide⟩

/-- C4: the effective priority is the own `priority_weight` under the
ABSOLUTE rule whatever the graph shape, the own weight for a node without an
owning DAG, and under the DOWNSTREAM rule the own weight plus the flattened
downstream closure; on the 1,1,1 chain a → b → c that gives 3 at a
and 1 at c. -/
theorem c4_priority_weight :
    (∀ (w : World) (fuel : Nat) (tid : String),
        (w.node tid).weight_rule = WeightRule.ABSOLUTE →
        priority_weight_total w fuel tid = (w.node tid).priority_weight)
    ∧ (∀ (w : World) (fuel : Nat) (tid : String),
        (w.node tid)._dag = none →
        priority_weight_total w fuel tid = (w.node tid).priority_weight)
    ∧ priority_weight_total w4 3 "a" = 3
    ∧ priority_weight_total w4 3 "c" = 1 := by
  refine ⟨?_, ?_, by decide, by decide⟩
  · intro w fuel tid h
    simp [priority_weight_total, h]
  · intro w fuel tid h
    by_cases ha : (w.node tid).weight_rule = WeightRule.ABSOLUTE
    · simp [priority_weight_total, ha]
    · simp [priority_weight_total, ha, h]

/-- Witness for C4 at concrete inputs: the ABSOLUTE head of `w4abs` keeps
its own weight 5, and a task id unknown to `w4` has no owning DAG and keeps
its default weight. -/
theorem c4_priority_weight_witness :
    ((w4abs.node "a").weight_rule = WeightRule.ABSOLUTE
      ∧ priority_weight_total w4abs 3 "a" = (w4abs.node "a").priority_weight)
    ∧ ((w4.node "z")._dag = none
      ∧ priority_weight_total w4 3 "z" = (w4.node "z").priority_weight) :=
  ⟨⟨by decide, c4_priority_weight.1 w4abs 3 "a" (by decide)⟩,
   ⟨by decide, c4_priority_weight.2.1 w4 3 "z" (by decide)⟩⟩

/-- C10: a weight rule outside the recognized set does not fault the
effective priority computation: the unrecognized branch falls through to the
downstream direction, so the result is the DOWNSTREAM formula — the own
weight for a DAG-less node, otherwise the own weight plus the flattened
downstream closure. -/
theorem c10_unrecognized_weight_rule :
    ∀ (w : World) (fuel : Nat) (tid : String),
      (w.node tid).weight_rule ∉ WeightRule.all_weight_rules →
      priority_weight_total w fuel tid =
        (if (w.node tid)._dag = none then (w.node tid).priority_weight
         else (w.node tid).priority_weight +
          ((get_flat_relative_ids w false fuel tid []).map
            (fun t => (w.node t).priority_weight)).sum) := by
  intro w fuel tid h
  have h1 : (w.node tid).weight_rule ≠ WeightRule.ABSOLUTE := by
    intro e
    exact h (by rw [e]; decide)
  have h2 : (w.node tid).weight_rule ≠ WeightRule.DOWNSTREAM := by
    intro e
    exact h (by rw [e]; decide)
  have h3 : (w.node tid).weight_rule ≠ WeightRule.UPSTREAM := by
    intro e
    exact h (by rw [e]; decide)
  simp [priority_weight_total, h1, h2, h3]

/-- Witness for C10: the head of `w10` carries the unrecognized rule
`bogus` and still computes the DOWNSTREAM total 3 on the 1,1,1 chain. -/
theorem c10_unrecognized_weight_rule_witness :
    (w10.node "a").weight_rule ∉ WeightRule.all_weight_rules
    ∧ priority_weight_total w10 3 "a" = 3 := by
  refine ⟨by decide, ?_⟩
  have h := c10_unrecognized_weight_rule w10 3 "a" (by decide)
  rw [h]
  decide

/-- C6: with otherwise valid arguments (well formed task id key, recognized
rules), construction succeeds exactly for `pool_slots ≥ 1` and fails
synchronously with the bad pool slots configuration fault for
`pool_slots < 1`; a malformed task id key instead fails with the key format
fault before any other check. -/
theorem c6_pool_slots :
    ∀ a : InitArgs,
      (a.otherwiseValid →
        (1 ≤ a.pool_slots → ∃ n, baseOperatorInit a = Except.ok n)
        ∧ (a.pool_slots < 1 →
            baseOperatorInit a = Except.error ConfigError.invalidPoolSlots))
      ∧ (validate_key a.task_id = false →
          baseOperatorInit a = Except.error ConfigError.invalidKeyFormat) := by
  intro a
  constructor
  · intro h
    rcases h with ⟨hkey, htr, hwr⟩
    have htrig :
        (if (if a.trigger_rule = "dummy" then "always" else a.trigger_rule)
              = "none_failed_or_skipped" then "none_failed_min_one_success"
         else (if a.trigger_rule = "dummy" then "always" else a.trigger_rule))
          ∈ TriggerRule.all_triggers := by
      rcases htr with hm | hd | hn
      · have h1 : a.trigger_rule ≠ "dummy" := by
          intro e
          rw [e] at hm
          simp [TriggerRule.all_triggers] at hm
        have h2 : a.trigger_rule ≠ "none_failed_or_skipped" := by
          intro e
          rw [e] at hm
          simp [TriggerRule.all_triggers] at hm
        simp [h1, h2, hm]
      · simp [hd]
        decide
      · simp [hn]
        decide
    constructor
    · intro hps
      have hnp : ¬ a.pool_slots < 1 := by omega
      simp [baseOperatorInit, hkey, htrig, hnp, hwr]
    · intro hps
      simp [baseOperatorInit, hkey, htrig, hps]
  · intro hbad
    simp [baseOperatorInit, hbad]

/-- The concrete, well formed constructor argument record of the C6
witness. -/
def argsOk : InitArgs :=
  { task_id := "t", owner := "airflow", email := none
    email_on_retry := true, email_on_failure := true
    start_date := none, end_date := none
    trigger_rule := "all_success", depends_on_past := false
    wait_for_downstream := false, retries := some 0, queue := "default"
    pool := none, pool_slots := 1, sla := none, execution_timeout := none
    on_execute_callback := none, on_failure_callback := none
    on_success_callback := none, on_retry_callback := none
    retry_delay := 300, retry_exponential_backoff := false
    max_retry_delay := none, priority_weight := 1
    weight_rule := "downstream", do_xcom_push := true }

/-- The same record with a task id that fails the key-format rule. -/
def argsBadKey : InitArgs :=
  { argsOk with task_id := "bad key!" }

/-- Witness for C6 at concrete argument records: pool slots 1 with the well
formed task id succeeds, and the malformed task id fails with the key
format fault even though its pool slots are valid. -/
theorem c6_pool_slots_witness :
    InitArgs.otherwiseValid argsOk
    ∧ (∃ n, baseOperatorInit argsOk = Except.ok n)
    ∧ validate_key argsBadKey.task_id = false
    ∧ baseOperatorInit argsBadKey = Except.error ConfigError.invalidKeyFormat :=
  ⟨by decide, ((c6_pool_slots argsOk).1 (by decide)).1 (by decide),
   by decide, (c6_pool_slots argsBadKey).2 (by decide)⟩

/-- C7: `defer` raises the suspension signal carrying exactly the four
fields and never returns normally, so any continuation sequenced after it in
the same execution path is dead code: binding it against an arbitrary
continuation still yields exactly the signal. -/
theorem c7_defer {α : Type} :
    ∀ (trigger : Nat) (method_name : String)
      (kwargs : Option (List (String × Int))) (timeout : Option Int)
      (k : Unit → Except TaskDeferred α),
      Operator.defer trigger method_name kwargs timeout =
        Except.error ⟨trigger, method_name, kwargs, timeout⟩
      ∧ (Operator.defer trigger method_name kwargs timeout).bind k =
        Except.error ⟨trigger, method_name, kwargs, timeout⟩ := by
  intro t m kw tmo k
  exact ⟨rfl, rfl⟩

/-- C8: two instances of the same concrete variant are equal exactly when
every attribute of the fixed comparison set matches, and equal instances
hash identically, whatever the attributes outside the comparison set do. -/
theorem c8_eq_hash :
    ∀ a b : Operator,
      (Operator.opEq a b = true ↔
        a.op_type = b.op_type ∧ a.compTuple = b.compTuple)
      ∧ (Operator.opEq a b = true → Operator.opHash a = Operator.opHash b) := by
  intro a b
  have hiff : Operator.opEq a b = true ↔
      a.op_type = b.op_type ∧ a.compTuple = b.compTuple := by
    unfold Operator.opEq Operator.compTuple
    by_cases h : a.op_type = b.op_type
    · simp [h, Prod.ext_iff, and_assoc]
    · simp [h]
  refine ⟨hiff, ?_⟩
  intro he
  rcases hiff.mp he with ⟨h1, h2⟩
  unfold Operator.opHash
  rw [h1, h2]

/-- The walk of `_do_render_template_fields` keeps the field count. -/
theorem renderFields_length (env : TplEnv) :
    ∀ (fields : List Val) (seen : List Nat),
      (renderFields env fields seen).1.length = fields.length := by
  intro fields
  induction fields with
  | nil => intro seen; simp [renderFields]
  | cons f fs ih =>
      intro seen
      by_cases ht : f.truthy
      · simp [renderFields, ht, ih]
      · simp [renderFields, ht, ih]

/-- Field `i` of the `_do_render_template_fields` walk: a falsy value is
left as it was; a truthy one is replaced by its `render_template` result
under the visited set as threaded through the earlier fields. -/
theorem renderFields_get (env : TplEnv) :
    ∀ (fields : List Val) (seen : List Nat) (i : Nat) (v : Val),
      fields[i]? = some v →
      (v.truthy = false → (renderFields env fields seen).1[i]? = some v)
      ∧ (v.truthy = true → (renderFields env fields seen).1[i]? =
          some (render_template env v
            (renderFields env (fields.take i) seen).2.2).1) := by
  intro fields
  induction fields with
  | nil =>
      intro seen i v hv
      simp at hv
  | cons f fs ih =>
      intro seen i v hv
      match i with
      | 0 =>
          simp at hv
          subst hv
          by_cases ht : f.truthy = true
          · simp [renderFields, ht]
          · simp [renderFields, ht]
      | Nat.succ j =>
          simp at hv
          by_cases ht : f.truthy = true
          · have h := ih (render_template env f seen).2.2 j v hv
            constructor
            · intro hf
              simpa [renderFields, ht] using (h.1 hf)
            · intro hvt
              simpa [renderFields, ht] using (h.2 hvt)
          · have h := ih seen j v hv
            constructor
            · intro hf
              simpa [renderFields, ht] using (h.1 hf)
            · intro hvt
              simpa [renderFields, ht] using (h.2 hvt)

/-- C9: the top level field render entry point leaves every template
eligible field holding a falsy value (empty string, zero, empty collection)
untouched — nothing is rendered for it and the stored value is unchanged —
and replaces every truthy value in place by its rendered result (under the
visited set threaded through the earlier fields of the same invocation). -/
theorem c9_falsy_fields_skipped (env : TplEnv) (fields : List Val) :
    (render_template_fields env fields).length = fields.length
    ∧ ∀ (i : Nat) (v : Val), fields[i]? = some v →
        (v.truthy = false → (render_template_fields env fields)[i]? = some v)
        ∧ (v.truthy = true → (render_template_fields env fields)[i]? =
            some (render_template env v
              (renderFields env (fields.take i) []).2.2).1) := by
  refine ⟨renderFields_length env fields [], ?_⟩
  intro i v hv
  exact renderFields_get env fields [] i v hv

/-- Witness for C9: on the field list holding the empty string, the string
`x`, the integer zero and an empty list, the falsy fields at indices 0, 2
and 3 stay untouched and the truthy field at index 1 is rendered. -/
theorem c9_falsy_fields_skipped_witness :
    ([Val.str "", Val.str "x", Val.intv 7 0, Val.listv []][0]? =
        some (Val.str ""))
    ∧ (render_template_fields env0
        [Val.str "", Val.str "x", Val.intv 7 0, Val.listv []])[0]? =
        some (Val.str "")
    ∧ (render_template_fields env0
        [Val.str "", Val.str "x", Val.intv 7 0, Val.listv []])[1]? =
        some (render_template env0 (Val.str "x")
          (renderFields env0 ([Val.str "", Val.str "x", Val.intv 7 0,
            Val.listv []].take 1) []).2.2).1
    ∧ (render_template_fields env0
        [Val.str "", Val.str "x", Val.intv 7 0, Val.listv []])[2]? =
        some (Val.intv 7 0) := by
  refine ⟨rfl, ?_, ?_, ?_⟩
  · exact ((c9_falsy_fields_skipped env0 _).2 0 (Val.str "") rfl).1 (by decide)
  · exact ((c9_falsy_fields_skipped env0 _).2 1 (Val.str "x") rfl).2 (by decide)
  · exact ((c9_falsy_fields_skipped env0 _).2 2 (Val.intv 7 0) rfl).1 (by decide)

/-- `add_only_new` always leaves the item in the set. -/
theorem mem_add_only_new (s : List String) (a : String) :
    a ∈ (add_only_new s a).1 := by
  by_cases h : a ∈ s <;> simp [add_only_new, h]

/-- `add_only_new` on a present item is a no-op that fires the diagnostic. -/
theorem add_only_new_of_mem {s : List String} {a : String} (h : a ∈ s) :
    add_only_new s a = (s, true) := by
  simp [add_only_new, h]

/-- `add_only_new` on a fresh item appends it once. -/
theorem add_only_new_of_not_mem {s : List String} {a : String} (h : a ∉ s) :
    add_only_new s a = (s ++ [a], false) := by
  simp [add_only_new, h]

/-- A fresh item occurs exactly once after `add_only_new`. -/
theorem count_add_only_new {s : List String} {a : String} (h : a ∉ s) :
    ((add_only_new s a).1).count a = 1 := by
  rw [add_only_new_of_not_mem h]
  simp [List.count_append, List.count_eq_zero.mpr h]

/-- Evaluation of one `_set_relatives` call of a single downstream operator
when both participants already live in the DAG `g`: no fault, no adoption,
and the two `add_only_new` updates with their diagnostics. -/
theorem set_downstream_pair_eq (w : World) (u d g : String) (hne : u ≠ d)
    (hu : (w.node u)._dag = some g) (hd : (w.node d)._dag = some g) :
    set_downstream w u [d] =
      Except.ok
        ((w.updNode u (fun n =>
            { n with _downstream_task_ids :=
                (add_only_new (w.node u)._downstream_task_ids d).1 })).updNode d
          (fun n =>
            { n with _upstream_task_ids :=
                (add_only_new (w.node d)._upstream_task_ids u).1 }),
         (if (add_only_new (w.node u)._downstream_task_ids d).2
            then [⟨u, d, g⟩] else [])
         ++ (if (add_only_new (w.node d)._upstream_task_ids u).2
            then [⟨d, u, g⟩] else [])) := by
  have hdu : ¬ d = u := fun e => hne e.symm
  have hdd : w.distinctDags u [d] = [g] := by
    simp [World.distinctDags, hu, hd]
  simp [set_downstream, setRelatives, hdd, hu, setRelativesStep, hd,
    World.updNode, hdu]

/-- `add_only_new` never drops a member. -/
theorem subset_add_only_new {s : List String} {y : String} (x : String)
    (h : y ∈ s) : y ∈ (add_only_new s x).1 := by
  by_cases hx : x ∈ s <;> simp [add_only_new, hx, h]

/-- Looking up the updated operator. -/
theorem updNode_node_self (w : World) (tid : String) (f : Operator → Operator) :
    (w.updNode tid f).node tid = f (w.node tid) := by
  simp [World.updNode]

/-- Looking up any other operator. -/
theorem updNode_node_other (w : World) (tid : String) (f : Operator → Operator)
    {p : String} (h : ¬ p = tid) : (w.updNode tid f).node p = w.node p := by
  simp [World.updNode, h]

/-- Operator updates leave every DAG object alone. -/
theorem updNode_dags (w : World) (tid : String) (f : Operator → Operator) :
    (w.updNode tid f).dags = w.dags := by
  simp [World.updNode]

/-- The operator table after adoption. -/
theorem adopt_node (w : World) (t g p : String) :
    (w.adopt t g).node p =
      (if p = t then { w.node p with _dag := some g } else w.node p) := by
  by_cases h : p = t
  · subst h
    simp [World.adopt, World.updNode, World.updDag]
  · simp [World.adopt, World.updNode, World.updDag, h]

/-- The DAG table after adoption: the target DAG gains the operator in its
task table and in its root grouping. -/
theorem adopt_dags (w : World) (t g γ : String) :
    (w.adopt t g).dags γ =
      (if γ = g then
        { w.dags γ with
            task_ids := (w.dags γ).task_ids ++ [t]
            task_group_children := (w.dags γ).task_group_children ++ [t] }
       else w.dags γ) := by
  by_cases h : γ = g
  · subst h
    simp [World.adopt, World.updNode, World.updDag]
  · simp [World.adopt, World.updNode, World.updDag, h]

/-- The owning DAG of any operator after one loop iteration of
`_set_relatives`: the processed task gains DAG `g` when it had none, every
other assignment is untouched. -/
theorem step_node_dag (selfId g : String) (upstream : Bool)
    (v : World) (ws : List DupWarning) (t p : String) :
    (((setRelativesStep selfId g upstream (v, ws) t).1).node p)._dag =
      (if p = t ∧ (v.node t)._dag = none then some g else (v.node p)._dag) := by
  unfold setRelativesStep
  by_cases hn : (v.node t)._dag = none
  · by_cases hp : p = t
    · subst hp
      cases upstream <;>
        simp [hn, World.updNode, adopt_node] <;>
        by_cases hps : p = selfId <;>
        simp [hps, adopt_node]
    · cases upstream <;>
        simp [hn, hp, World.updNode, adopt_node] <;>
        by_cases hps : p = selfId <;>
        simp [hps, hp, adopt_node]
  · by_cases hp : p = t
    · subst hp
      cases upstream <;>
        simp [hn, World.updNode] <;>
        by_cases hps : p = selfId <;>
        simp [hps]
    · cases upstream <;>
        simp [hn, hp, World.updNode] <;>
        by_cases hps : p = selfId <;>
        simp [hps, hp]

/-- The DAG table after one loop iteration: only an adoption touches it. -/
theorem step_dags (selfId g : String) (upstream : Bool)
    (v : World) (ws : List DupWarning) (t γ : String) :
    ((setRelativesStep selfId g upstream (v, ws) t).1).dags γ =
      (if γ = g ∧ (v.node t)._dag = none then
        { v.dags γ with
            task_ids := (v.dags γ).task_ids ++ [t]
            task_group_children := (v.dags γ).task_group_children ++ [t] }
       else v.dags γ) := by
  unfold setRelativesStep
  by_cases hn : (v.node t)._dag = none
  · cases upstream <;>
      by_cases hγ : γ = g <;>
      simp [hn, hγ, World.updNode, adopt_dags]
  · cases upstream <;> simp [hn, World.updNode]

/-- The upstream set of any operator after one loop iteration of
`_set_relatives`. -/
theorem step_node_up (selfId g : String) (upstream : Bool)
    (v : World) (ws : List DupWarning) (t p : String) :
    ((setRelativesStep selfId g upstream
        (v, ws) t).1.node p)._upstream_task_ids =
      (if upstream then
        (if p = selfId then
          (add_only_new (v.node selfId)._upstream_task_ids t).1
         else (v.node p)._upstream_task_ids)
       else
        (if p = t then
          (add_only_new (v.node t)._upstream_task_ids selfId).1
         else (v.node p)._upstream_task_ids)) := by
  unfold setRelativesStep
  by_cases hn : (v.node t)._dag = none <;>
    cases upstream <;>
    by_cases hpt : p = t <;>
    by_cases hps : p = selfId <;>
    simp [hn, hpt, hps, World.updNode, adopt_node] <;>
    simp_all [World.updNode, adopt_node]

/-- The downstream set of any operator after one loop iteration of
`_set_relatives`. -/
theorem step_node_down (selfId g : String) (upstream : Bool)
    (v : World) (ws : List DupWarning) (t p : String) :
    ((setRelativesStep selfId g upstream
        (v, ws) t).1.node p)._downstream_task_ids =
      (if upstream then
        (if p = t then
          (add_only_new (v.node t)._downstream_task_ids selfId).1
         else (v.node p)._downstream_task_ids)
       else
        (if p = selfId then
          (add_only_new (v.node selfId)._downstream_task_ids t).1
         else (v.node p)._downstream_task_ids)) := by
  unfold setRelativesStep
  by_cases hn : (v.node t)._dag = none <;>
    cases upstream <;>
    by_cases hpt : p = t <;>
    by_cases hps : p = selfId <;>
    simp [hn, hpt, hps, World.updNode, adopt_node] <;>
    simp_all [World.updNode, adopt_node]

/-- One loop iteration never removes an id from an upstream set. -/
theorem step_up_mono (selfId g : String) (upstream : Bool)
    (v : World) (ws : List DupWarning) (t p x : String)
    (h : x ∈ (v.node p)._upstream_task_ids) :
    x ∈ ((setRelativesStep selfId g upstream
        (v, ws) t).1.node p)._upstream_task_ids := by
  rw [step_node_up]
  split_ifs with h1 h2 h3 <;>
    first
      | exact h
      | (subst h2; exact subset_add_only_new _ h)
      | (subst h3; exact subset_add_only_new _ h)

/-- One loop iteration never removes an id from a downstream set. -/
theorem step_down_mono (selfId g : String) (upstream : Bool)
    (v : World) (ws : List DupWarning) (t p x : String)
    (h : x ∈ (v.node p)._downstream_task_ids) :
    x ∈ ((setRelativesStep selfId g upstream
        (v, ws) t).1.node p)._downstream_task_ids := by
  rw [step_node_down]
  split_ifs with h1 h2 h3 <;>
    first
      | exact h
      | (subst h2; exact subset_add_only_new _ h)
      | (subst h3; exact subset_add_only_new _ h)

/-- One loop iteration records its edge in both directions. -/
theorem step_edge (selfId g : String) (upstream : Bool)
    (v : World) (ws : List DupWarning) (t : String) :
    (upstream = true →
      t ∈ ((setRelativesStep selfId g upstream
            (v, ws) t).1.node selfId)._upstream_task_ids
      ∧ selfId ∈ ((setRelativesStep selfId g upstream
            (v, ws) t).1.node t)._downstream_task_ids)
    ∧ (upstream = false →
      t ∈ ((setRelativesStep selfId g upstream
            (v, ws) t).1.node selfId)._downstream_task_ids
      ∧ selfId ∈ ((setRelativesStep selfId g upstream
            (v, ws) t).1.node t)._upstream_task_ids) := by
  constructor
  · intro hb
    subst hb
    rw [step_node_up, step_node_down]
    simp
    exact ⟨mem_add_only_new _ _, mem_add_only_new _ _⟩
  · intro hb
    subst hb
    rw [step_node_up, step_node_down]
    simp
    exact ⟨mem_add_only_new _ _, mem_add_only_new _ _⟩

/-- The final loop of `_set_relatives` over a task list: a fold of the per
task step. -/
def runSteps (selfId g : String) (upstream : Bool) (ts : List String)
    (v : World) (ws : List DupWarning) : World × List DupWarning :=
  ts.foldl (setRelativesStep selfId g upstream) (v, ws)

/-- Invariants of the `_set_relatives` loop: DAG assignments only ever go
from nothing to `g`, DAG table membership and relationship set membership
are never lost, every processed task that started in `g` or nowhere ends
owned by `g`, every processed task that started nowhere is in the task
table and the root grouping of `g`, and every processed task has its edge
to `self` recorded in both directions. -/
theorem runSteps_facts (selfId g : String) (upstream : Bool) :
    ∀ (ts : List String) (v : World) (ws : List DupWarning),
      (∀ p, ((runSteps selfId g upstream ts v ws).1.node p)._dag
            = (v.node p)._dag
          ∨ ((v.node p)._dag = none
            ∧ ((runSteps selfId g upstream ts v ws).1.node p)._dag = some g))
      ∧ (∀ γ x, x ∈ (v.dags γ).task_ids →
          x ∈ ((runSteps selfId g upstream ts v ws).1.dags γ).task_ids)
      ∧ (∀ γ x, x ∈ (v.dags γ).task_group_children →
          x ∈ ((runSteps selfId g upstream ts v ws).1.dags γ).task_group_children)
      ∧ (∀ p x, x ∈ (v.node p)._upstream_task_ids →
          x ∈ ((runSteps selfId g upstream ts v ws).1.node p)._upstream_task_ids)
      ∧ (∀ p x, x ∈ (v.node p)._downstream_task_ids →
          x ∈ ((runSteps selfId g upstream ts v ws).1.node p)._downstream_task_ids)
      ∧ (∀ t, t ∈ ts → ((v.node t)._dag = none ∨ (v.node t)._dag = some g) →
          ((runSteps selfId g upstream ts v ws).1.node t)._dag = some g)
      ∧ (∀ t, t ∈ ts → (v.node t)._dag = none →
          t ∈ ((runSteps selfId g upstream ts v ws).1.dags g).task_ids
          ∧ t ∈ ((runSteps selfId g upstream ts v ws).1.dags g).task_group_children)
      ∧ (∀ t, t ∈ ts →
          (upstream = true →
            t ∈ ((runSteps selfId g upstream ts v ws).1.node selfId)._upstream_task_ids
            ∧ selfId ∈ ((runSteps selfId g upstream ts v ws).1.node t)._downstream_task_ids)
          ∧ (upstream = false →
            t ∈ ((runSteps selfId g upstream ts v ws).1.node selfId)._downstream_task_ids
            ∧ selfId ∈ ((runSteps selfId g upstream ts v ws).1.node t)._upstream_task_ids)) := by
  intro ts
  induction ts with
  | nil =>
      intro v ws
      exact ⟨fun p => Or.inl rfl, fun γ x h => h, fun γ x h => h,
        fun p x h => h, fun p x h => h, by simp, by simp, by simp⟩
  | cons t ts ih =>
      intro v ws
      have hrw : runSteps selfId g upstream (t :: ts) v ws
          = runSteps selfId g upstream ts
              (setRelativesStep selfId g upstream (v, ws) t).1
              (setRelativesStep selfId g upstream (v, ws) t).2 := rfl
      rw [hrw]
      obtain ⟨F1, F2, F3, F4, F5, F6, F7, F8⟩ :=
        ih (setRelativesStep selfId g upstream (v, ws) t).1
          (setRelativesStep selfId g upstream (v, ws) t).2
      refine ⟨?_, ?_, ?_, ?_, ?_, ?_, ?_, ?_⟩
      · intro p
        rcases F1 p with h | h
        · rw [h, step_node_dag]
          by_cases hc : p = t ∧ (v.node t)._dag = none
          · right
            rw [if_pos hc]
            exact ⟨hc.1 ▸ hc.2, rfl⟩
          · left
            rw [if_neg hc]
        · right
          refine ⟨?_, h.2⟩
          have hs := step_node_dag selfId g upstream v ws t p
          by_cases hc : p = t ∧ (v.node t)._dag = none
          · exact hc.1 ▸ hc.2
          · rw [hs, if_neg hc] at h
            exact h.1
      · intro γ x h
        apply F2
        rw [step_dags]
        by_cases hc : γ = g ∧ (v.node t)._dag = none
        · rw [if_pos hc]
          exact List.mem_append_left _ h
        · rw [if_neg hc]
          exact h
      · intro γ x h
        apply F3
        rw [step_dags]
        by_cases hc : γ = g ∧ (v.node t)._dag = none
        · rw [if_pos hc]
          exact List.mem_append_left _ h
        · rw [if_neg hc]
          exact h
      · intro p x h
        exact F4 p x (step_up_mono selfId g upstream v ws t p x h)
      · intro p x h
        exact F5 p x (step_down_mono selfId g upstream v ws t p x h)
      · intro q hq hdag
        rcases List.mem_cons.mp hq with rfl | hmem
        · have hq' : ((setRelativesStep selfId g upstream (v, ws) q).1.node q)._dag
              = some g := by
            rw [step_node_dag]
            rcases hdag with hnone | hsome
            · rw [if_pos ⟨rfl, hnone⟩]
            · by_cases hc : q = q ∧ (v.node q)._dag = none
              · rw [if_pos hc]
              · rw [if_neg hc]
                exact hsome
          rcases F1 q with h | h
          · rw [h]
            exact hq'
          · exact h.2
        · apply F6 q hmem
          rw [step_node_dag]
          by_cases hc : q = t ∧ (v.node t)._dag = none
          · right
            rw [if_pos hc]
          · rw [if_neg hc]
            exact hdag
      · intro q hq hnone
        rcases List.mem_cons.mp hq with rfl | hmem
        · have h0 : q ∈ ((setRelativesStep selfId g upstream (v, ws) q).1.dags g).task_ids
              ∧ q ∈ ((setRelativesStep selfId g upstream (v, ws) q).1.dags g).task_group_children := by
            rw [step_dags, if_pos ⟨rfl, hnone⟩]
            constructor <;> exact List.mem_append_right _ (by simp)
          exact ⟨F2 g q h0.1, F3 g q h0.2⟩
        · by_cases hc : q = t ∧ (v.node t)._dag = none
          · have h0 : q ∈ ((setRelativesStep selfId g upstream (v, ws) t).1.dags g).task_ids
                ∧ q ∈ ((setRelativesStep selfId g upstream (v, ws) t).1.dags g).task_group_children := by
              rw [step_dags, if_pos ⟨rfl, hc.2⟩]
              constructor <;> exact List.mem_append_right _ (by simp [hc.1])
            exact ⟨F2 g q h0.1, F3 g q h0.2⟩
          · apply F7 q hmem
            rw [step_node_dag, if_neg hc]
            exact hnone
      · intro q hq
        rcases List.mem_cons.mp hq with rfl | hmem
        · have he := step_edge selfId g upstream v ws q
          constructor
          · intro hb
            rcases he.1 hb with ⟨h1, h2⟩
            exact ⟨F4 selfId q h1, F5 q selfId h2⟩
          · intro hb
            rcases he.2 hb with ⟨h1, h2⟩
            exact ⟨F5 selfId q h1, F4 q selfId h2⟩
        · exact F8 q hmem

/-- C2: for every link attempt, participants spanning more than one distinct
owning DAG fault with the multi graph conflict; participants none of which
owns a DAG fault with the ungrouped relationship error; and with exactly one
owning DAG found the call returns normally, every participant ends owned by
that DAG, every previously DAG-less participant (possibly `self` itself) is
in that DAG task table and root grouping, and the requested edges are
recorded in both directions. -/
theorem c2_set_relatives :
    ∀ (w : World) (selfId : String) (others : List String) (upstream : Bool),
      (1 < (w.distinctDags selfId others).length →
        setRelatives w selfId others upstream =
          Except.error LinkError.multiGraphConflict)
      ∧ ((∀ p, p ∈ selfId :: others → (w.node p)._dag = none) →
        setRelatives w selfId others upstream =
          Except.error LinkError.ungroupedRelationship)
      ∧ (∀ g, w.distinctDags selfId others = [g] →
          ∃ w1 ws, setRelatives w selfId others upstream = Except.ok (w1, ws)
            ∧ (∀ p, p ∈ selfId :: others →
                (w1.node p)._dag = some g
                ∧ ((w.node p)._dag = none →
                    p ∈ (w1.dags g).task_ids
                    ∧ p ∈ (w1.dags g).task_group_children))
            ∧ (∀ t, t ∈ others →
                (upstream = true →
                  t ∈ (w1.node selfId)._upstream_task_ids
                  ∧ selfId ∈ (w1.node t)._downstream_task_ids)
                ∧ (upstream = false →
                  t ∈ (w1.node selfId)._downstream_task_ids
                  ∧ selfId ∈ (w1.node t)._upstream_task_ids))) := by
  intro w selfId others upstream
  refine ⟨?_, ?_, ?_⟩
  · intro hlen
    rcases hls : w.distinctDags selfId others with _ | ⟨g1, _ | ⟨g2, rest⟩⟩
    · rw [hls] at hlen
      simp at hlen
    · rw [hls] at hlen
      simp at hlen
    · simp [setRelatives, hls]
  · intro hall
    have hnil : w.distinctDags selfId others = [] := by
      unfold World.distinctDags
      rw [List.dedup_eq_nil, List.filterMap_eq_nil_iff]
      intro p hp
      rw [hall p hp]
    simp [setRelatives, hnil]
  · intro g hg
    have hmemg : ∀ p, p ∈ selfId :: others →
        ∀ h, (w.node p)._dag = some h → h = g := by
      intro p hp h hdag
      have hmem : h ∈ w.distinctDags selfId others := by
        unfold World.distinctDags
        rw [List.mem_dedup, List.mem_filterMap]
        exact ⟨p, hp, hdag⟩
      rw [hg] at hmem
      simpa using hmem
    have hself : ((if (w.node selfId)._dag = none
        then w.adopt selfId g else w).node selfId)._dag = some g := by
      by_cases hn : (w.node selfId)._dag = none
      · rw [if_pos hn, adopt_node, if_pos rfl]
      · rw [if_neg hn]
        cases hd : (w.node selfId)._dag with
        | none => exact absurd hd hn
        | some h => rw [hmemg selfId (by simp) h hd]
    set w0 := if (w.node selfId)._dag = none then w.adopt selfId g else w
      with hw0
    have hothers : ∀ t, t ∈ others →
        (w0.node t)._dag = none ∨ (w0.node t)._dag = some g := by
      intro t ht
      rw [hw0]
      by_cases hn : (w.node selfId)._dag = none
      · rw [if_pos hn, adopt_node]
        by_cases hts : t = selfId
        · rw [if_pos hts]
          exact Or.inr rfl
        · rw [if_neg hts]
          cases hd : (w.node t)._dag with
          | none => exact Or.inl rfl
          | some h =>
              exact Or.inr (by
                rw [hmemg t (List.mem_cons_of_mem _ ht) h hd])
      · rw [if_neg hn]
        cases hd : (w.node t)._dag with
        | none => exact Or.inl rfl
        | some h =>
            exact Or.inr (by rw [hmemg t (List.mem_cons_of_mem _ ht) h hd])
    have hrun : setRelatives w selfId others upstream =
        Except.ok (runSteps selfId g upstream others w0 []) := by
      rw [hw0]
      simp [setRelatives, hg, runSteps]
    obtain ⟨F1, F2, F3, F4, F5, F6, F7, F8⟩ :=
      runSteps_facts selfId g upstream others w0 []
    refine ⟨(runSteps selfId g upstream others w0 []).1,
      (runSteps selfId g upstream others w0 []).2, hrun, ?_, ?_⟩
    · intro p hp
      rcases List.mem_cons.mp hp with rfl | hpo
      · constructor
        · rcases F1 p with h | h
          · rw [h]
            exact hself
          · exact h.2
        · intro hnone
          have h0 : p ∈ (w0.dags g).task_ids
              ∧ p ∈ (w0.dags g).task_group_children := by
            rw [hw0, if_pos hnone]
            rw [adopt_dags, if_pos rfl]
            constructor <;> exact List.mem_append_right _ (by simp)
          exact ⟨F2 g p h0.1, F3 g p h0.2⟩
      · constructor
        · exact F6 p hpo (hothers p hpo)
        · intro hnone
          by_cases h0 : (w0.node p)._dag = none
          · exact F7 p hpo h0
          · have hps : p = selfId ∧ (w.node selfId)._dag = none := by
              rw [hw0] at h0
              by_cases hn : (w.node selfId)._dag = none
              · rw [if_pos hn, adopt_node] at h0
                by_cases hpe : p = selfId
                · exact ⟨hpe, hn⟩
                · rw [if_neg hpe] at h0
                  exact absurd hnone h0
              · rw [if_neg hn] at h0
                exact absurd hnone h0
            have h0m : p ∈ (w0.dags g).task_ids
                ∧ p ∈ (w0.dags g).task_group_children := by
              rw [hw0, if_pos hps.2, adopt_dags, if_pos rfl]
              constructor <;> exact List.mem_append_right _ (by simp [hps.1])
            exact ⟨F2 g p h0m.1, F3 g p h0m.2⟩
    · intro t ht
      exact F8 t ht

/-- Two DAG-less operators, one operator in DAG `g1`, one in `g2`, for the
C2 witness. -/
def wC2 : World :=
  worldOf
    [mkOp "y" (some "d") [] [] 1 "downstream",
     mkOp "u" (some "g1") [] [] 1 "downstream",
     mkOp "v" (some "g2") [] [] 1 "downstream"]
    [⟨"d", ["y"], ["y"]⟩]

/-- Witness for C2, all three branches at concrete inputs: linking the
DAG-less `x` downstream of `y` (owned by `d`) succeeds with adoption;
linking `u` (in `g1`) to `v` (in `g2`) is the multi graph conflict; linking
two unknown, DAG-less ids is the ungrouped relationship fault. -/
theorem c2_set_relatives_witness :
    (1 < (wC2.distinctDags "u" ["v"]).length
      ∧ setRelatives wC2 "u" ["v"] false =
          Except.error LinkError.multiGraphConflict)
    ∧ ((∀ p, p ∈ ["p", "q"] → (wC2.node p)._dag = none)
      ∧ setRelatives wC2 "p" ["q"] false =
          Except.error LinkError.ungroupedRelationship)
    ∧ (wC2.distinctDags "x" ["y"] = ["d"]
      ∧ ∃ w1 ws, setRelatives wC2 "x" ["y"] false = Except.ok (w1, ws)
          ∧ (∀ p, p ∈ "x" :: ["y"] →
              (w1.node p)._dag = some "d"
              ∧ ((wC2.node p)._dag = none →
                  p ∈ (w1.dags "d").task_ids
                  ∧ p ∈ (w1.dags "d").task_group_children))
          ∧ (∀ t, t ∈ ["y"] →
              (false = true →
                t ∈ (w1.node "x")._upstream_task_ids
                ∧ "x" ∈ (w1.node t)._downstream_task_ids)
              ∧ (false = false →
                t ∈ (w1.node "x")._downstream_task_ids
                ∧ "x" ∈ (w1.node t)._upstream_task_ids))) :=
  ⟨⟨by decide, (c2_set_relatives wC2 "u" ["v"] false).1 (by decide)⟩,
   ⟨by decide, (c2_set_relatives wC2 "p" ["q"] false).2.1 (by decide)⟩,
   ⟨by decide, (c2_set_relatives wC2 "x" ["y"] false).2.2 "d" (by decide)⟩⟩

/-- C3: for two operators resolved to the same owning DAG, linking the edge
u → d twice leaves exactly the edge sets one call leaves — the id is in each
set, a fresh id lands there exactly once, and the second call changes no
relationship set of any operator — and the second call returns normally,
emitting the two duplicate edge diagnostics instead of an error. -/
theorem c3_link_idempotent :
    ∀ (w : World) (u d g : String), u ≠ d →
      (w.node u)._dag = some g → (w.node d)._dag = some g →
      ∃ w1 ws1 w2 ws2,
        set_downstream w u [d] = Except.ok (w1, ws1)
        ∧ set_downstream w1 u [d] = Except.ok (w2, ws2)
        ∧ ws2 = [⟨u, d, g⟩, ⟨d, u, g⟩]
        ∧ d ∈ (w1.node u)._downstream_task_ids
        ∧ u ∈ (w1.node d)._upstream_task_ids
        ∧ (d ∉ (w.node u)._downstream_task_ids →
            ((w1.node u)._downstream_task_ids).count d = 1)
        ∧ (u ∉ (w.node d)._upstream_task_ids →
            ((w1.node d)._upstream_task_ids).count u = 1)
        ∧ ∀ p, (w2.node p)._upstream_task_ids = (w1.node p)._upstream_task_ids
            ∧ (w2.node p)._downstream_task_ids =
              (w1.node p)._downstream_task_ids := by
  intro w u d g hne hu hd
  have hdu : ¬ d = u := fun e => hne e.symm
  have h1 := set_downstream_pair_eq w u d g hne hu hd
  set w1 : World :=
    (w.updNode u (fun n =>
        { n with _downstream_task_ids :=
            (add_only_new (w.node u)._downstream_task_ids d).1 })).updNode d
      (fun n =>
        { n with _upstream_task_ids :=
            (add_only_new (w.node d)._upstream_task_ids u).1 }) with hw1
  have hnu : w1.node u =
      { w.node u with _downstream_task_ids :=
          (add_only_new (w.node u)._downstream_task_ids d).1 } := by
    simp [hw1, World.updNode, hdu, hne]
  have hnd : w1.node d =
      { w.node d with _upstream_task_ids :=
          (add_only_new (w.node d)._upstream_task_ids u).1 } := by
    simp [hw1, World.updNode, hdu, hne]
  have hu1 : (w1.node u)._dag = some g := by rw [hnu]; exact hu
  have hd1 : (w1.node d)._dag = some g := by rw [hnd]; exact hd
  have hmem1 : d ∈ (w1.node u)._downstream_task_ids := by
    rw [hnu]
    exact mem_add_only_new _ _
  have hmem2 : u ∈ (w1.node d)._upstream_task_ids := by
    rw [hnd]
    exact mem_add_only_new _ _
  have h2 := set_downstream_pair_eq w1 u d g hne hu1 hd1
  rw [add_only_new_of_mem hmem1, add_only_new_of_mem hmem2] at h2
  refine ⟨w1, _, _, _, h1, h2, rfl, hmem1, hmem2, ?_, ?_, ?_⟩
  · intro hfresh
    rw [hnu]
    exact count_add_only_new hfresh
  · intro hfresh
    rw [hnd]
    exact count_add_only_new hfresh
  · intro p
    by_cases hpd : p = d
    · constructor <;> simp [World.updNode, hpd, hdu]
    · by_cases hpu : p = u
      · constructor <;> simp [World.updNode, hpu, hpd, hne]
      · constructor <;> simp [World.updNode, hpd, hpu]

/-- Witness for C3 on a concrete two node DAG: the computed second call
output and the unchanged edge sets, evaluated. -/
theorem c3_link_idempotent_witness :
    ("a" : String) ≠ "b"
    ∧ ((w4.node "a")._dag = some "d")
    ∧ ((w4.node "b")._dag = some "d")
    ∧ ∃ w1 ws1 w2 ws2,
        set_downstream w4 "a" ["b"] = Except.ok (w1, ws1)
        ∧ set_downstream w1 "a" ["b"] = Except.ok (w2, ws2)
        ∧ ws2 = [⟨"a", "b", "d"⟩, ⟨"b", "a", "d"⟩]
        ∧ "b" ∈ (w1.node "a")._downstream_task_ids
        ∧ "a" ∈ (w1.node "b")._upstream_task_ids
        ∧ ("b" ∉ (w4.node "a")._downstream_task_ids →
            ((w1.node "a")._downstream_task_ids).count "b" = 1)
        ∧ ("a" ∉ (w4.node "b")._upstream_task_ids →
            ((w1.node "b")._upstream_task_ids).count "a" = 1)
        ∧ ∀ p, (w2.node p)._upstream_task_ids = (w1.node p)._upstream_task_ids
            ∧ (w2.node p)._downstream_task_ids =
              (w1.node p)._downstream_task_ids :=
  ⟨by decide, by decide, by decide,
   c3_link_idempotent w4 "a" "b" "d" (by decide) (by decide) (by decide)⟩

/-- The six node chain fixture: distinct operators a, b, c, d, e, f, all
owned by DAG `G`, no edges yet. -/
def wC5 : World :=
  worldOf
    [mkOp "a" (some "G") [] [] 1 "downstream",
     mkOp "b" (some "G") [] [] 1 "downstream",
     mkOp "c" (some "G") [] [] 1 "downstream",
     mkOp "d" (some "G") [] [] 1 "downstream",
     mkOp "e" (some "G") [] [] 1 "downstream",
     mkOp "f" (some "G") [] [] 1 "downstream"]
    [⟨"G", ["a", "b", "c", "d", "e", "f"], ["a", "b", "c", "d", "e", "f"]⟩]

/-- A walk of the `chain` loop that reached two adjacent sequence arguments
of unequal length aborts there with the length mismatch fault, keeping the
world and the diagnostics accumulated before the offending pair and adding
nothing for it. -/
theorem chain_mismatch (us ds : List String) (post : List ChainArg)
    (hlen : us.length ≠ ds.length) :
    ∀ (pre : List ChainArg) (w w1 : World) (ws1 : List DupWarning),
      chain w (pre ++ [ChainArg.many us]) = (w1, ws1, none) →
      chain w (pre ++ ChainArg.many us :: ChainArg.many ds :: post) =
        (w1, ws1, some LinkError.chainLengthMismatch) := by
  intro pre
  induction pre with
  | nil =>
      intro w w1 ws1 hpre
      simp [chain] at hpre
      obtain ⟨hw, hws⟩ := hpre
      subst hw
      subst hws
      simp [chain, chainStep, hlen]
  | cons a pre ih =>
      intro w w1 ws1 hpre
      cases pre with
      | nil =>
          cases hstep : chainStep w a (ChainArg.many us) with
          | error e =>
              simp [chain, hstep] at hpre
          | ok r =>
              obtain ⟨rw1, rs1⟩ := r
              simp [chain, hstep] at hpre
              obtain ⟨hw, hws⟩ := hpre
              subst hw
              subst hws
              have hcs : chainStep rw1 (ChainArg.many us) (ChainArg.many ds)
                  = Except.error LinkError.chainLengthMismatch := by
                simp [chainStep, hlen]
              have hinner : chain rw1
                  (ChainArg.many us :: ChainArg.many ds :: post)
                  = (rw1, [], some LinkError.chainLengthMismatch) := by
                simp only [chain, hcs]
              simp only [List.cons_append, List.nil_append]
              rw [chain, hstep]
              dsimp only
              rw [hinner]
              simp
      | cons b pre' =>
          cases hstep : chainStep w a b with
          | error e =>
              simp [chain, hstep] at hpre
          | ok r =>
              rcases hch : chain r.1 ((b :: pre') ++ [ChainArg.many us]) with
                ⟨w2, ws2, e2⟩
              simp only [List.cons_append] at hch
              simp [chain, hstep, hch] at hpre
              obtain ⟨hw2, hws2, he2⟩ := hpre
              subst he2
              have hih := ih r.1 w2 ws2 (by
                simpa [List.cons_append] using hch)
              simp only [List.cons_append] at hih
              simp [chain, hstep, hih, hw2, hws2]

/-- C5: `chain a [b, c] [d, e] f` on six distinct operators of one DAG
produces exactly the edges a → b, a → c, b → d, c → e, d → f, e → f (each
operator ends with exactly the listed upstream and downstream id sets, with
no fault and no duplicate diagnostics), and whenever the walk reaches two
adjacent sequence arguments of unequal length, it aborts with the chain
length mismatch fault without connecting that pair. -/
theorem c5_chain :
    ((chain wC5 [ChainArg.one "a", ChainArg.many ["b", "c"],
        ChainArg.many ["d", "e"], ChainArg.one "f"]).2.2 = none
      ∧ (chain wC5 [ChainArg.one "a", ChainArg.many ["b", "c"],
          ChainArg.many ["d", "e"], ChainArg.one "f"]).2.1 = []
      ∧ (let r := (chain wC5 [ChainArg.one "a", ChainArg.many ["b", "c"],
          ChainArg.many ["d", "e"], ChainArg.one "f"]).1
         (r.node "a")._downstream_task_ids = ["b", "c"]
         ∧ (r.node "a")._upstream_task_ids = []
         ∧ (r.node "b")._downstream_task_ids = ["d"]
         ∧ (r.node "b")._upstream_task_ids = ["a"]
         ∧ (r.node "c")._downstream_task_ids = ["e"]
         ∧ (r.node "c")._upstream_task_ids = ["a"]
         ∧ (r.node "d")._downstream_task_ids = ["f"]
         ∧ (r.node "d")._upstream_task_ids = ["b"]
         ∧ (r.node "e")._downstream_task_ids = ["f"]
         ∧ (r.node "e")._upstream_task_ids = ["c"]
         ∧ (r.node "f")._downstream_task_ids = []
         ∧ (r.node "f")._upstream_task_ids = ["d", "e"]))
    ∧ (∀ (us ds : List String) (post pre : List ChainArg)
        (w w1 : World) (ws1 : List DupWarning),
        us.length ≠ ds.length →
        chain w (pre ++ [ChainArg.many us]) = (w1, ws1, none) →
        chain w (pre ++ ChainArg.many us :: ChainArg.many ds :: post) =
          (w1, ws1, some LinkError.chainLengthMismatch)) :=
  ⟨by decide,
   fun us ds post pre w w1 ws1 hlen hpre =>
     chain_mismatch us ds post hlen pre w w1 ws1 hpre⟩

/-- Witness for C5: the mismatch branch applied after the successful prefix
a → [b, c], with the offending pair [b, c] against [d]. -/
theorem c5_chain_witness :
    (["b", "c"] : List String).length ≠ (["d"] : List String).length
    ∧ chain wC5 ([ChainArg.one "a"] ++ ChainArg.many ["b", "c"]
        :: ChainArg.many ["d"] :: []) =
      ((chain wC5 ([ChainArg.one "a"] ++ [ChainArg.many ["b", "c"]])).1,
       (chain wC5 ([ChainArg.one "a"] ++ [ChainArg.many ["b", "c"]])).2.1,
       some LinkError.chainLengthMismatch) :=
  ⟨by decide,
   c5_chain.2 ["b", "c"] ["d"] [] [ChainArg.one "a"] wC5
     (chain wC5 ([ChainArg.one "a"] ++ [ChainArg.many ["b", "c"]])).1
     (chain wC5 ([ChainArg.one "a"] ++ [ChainArg.many ["b", "c"]])).2.1
     (by decide) rfl⟩

/-- Witness for C8: `a8` and `b8` differ in `retries`, `pool_slots` and
`queue` (all outside the comparison set), are equal, and hash identically. -/
theorem c8_eq_hash_witness :
    Operator.opEq a8 b8 = true
    ∧ Operator.opHash a8 = Operator.opHash b8
    ∧ a8.retries ≠ b8.retries :=
  ⟨by decide, (c8_eq_hash a8 b8).2 (by decide), by decide⟩

end Airflow
